import Mathlib

/-!
Verification of the `colour_console` attribute algebra.

The library manipulates the console's text-attribute register (an
`unsigned int` bit register) through two value types:

* `ConsoleTextAttr` — an absolute attribute set; printing it overwrites
  the whole register (`set_text_attributes`).
* `ConsoleTextAttrChange` — a `(value, mask)` pair; printing it performs
  a read–modify–write that replaces only the masked bits
  (`change_text_attributes`).

The host console is modelled as a state `Console` carrying the attribute
register, the character content of the output stream, and a trace of the
host-API events performed (register reads, register writes, text writes).
Machine integers (`unsigned int`) are modelled as `Nat`; the C bitwise
complement `~m` on a 32-bit unsigned value is `compl32 m`.
-/

namespace cc

/-- Absolute console attribute set: `struct ConsoleTextAttr { unsigned int value = 0; }`. -/
@[ext]
structure ConsoleTextAttr where
  value : Nat := 0
deriving DecidableEq

/-- Masked attribute change: `struct ConsoleTextAttrChange { unsigned int value = 0; unsigned int mask = 0; }`. -/
@[ext]
structure ConsoleTextAttrChange where
  value : Nat := 0
  mask : Nat := 0
deriving DecidableEq

/-- `operator | (ConsoleTextAttr, ConsoleTextAttr)`: bitwise OR of the values. -/
instance : OrOp ConsoleTextAttr where
  or lhs rhs := ⟨lhs.value ||| rhs.value⟩

/-- `operator | (ConsoleTextAttrChange, ConsoleTextAttrChange)`: componentwise bitwise OR. -/
instance : OrOp ConsoleTextAttrChange where
  or lhs rhs := ⟨lhs.value ||| rhs.value, lhs.mask ||| rhs.mask⟩

@[simp]
theorem attr_or_value (a b : ConsoleTextAttr) : (a ||| b).value = a.value ||| b.value := rfl

@[simp]
theorem change_or_value (a b : ConsoleTextAttrChange) : (a ||| b).value = a.value ||| b.value := rfl

@[simp]
theorem change_or_mask (a b : ConsoleTextAttrChange) : (a ||| b).mask = a.mask ||| b.mask := rfl

/-- The C expression `~m` on a 32-bit `unsigned int` mask `m < 2^32`. -/
def compl32 (m : Nat) : Nat := m ^^^ 0xFFFFFFFF

/-- One observable host-API event: a read of the console register, an
absolute write of the console register, or a text write to the stream. -/
inductive Event where
  | readReg (v : Nat)
  | writeReg (v : Nat)
  | writeText (s : String)
deriving DecidableEq

/-- The external world: the host console's attribute register, the
character content accumulated in the output stream, and the trace of
host-API events performed so far. -/
@[ext]
structure Console where
  register : Nat
  stream : String
  trace : List Event
deriving DecidableEq

/-- `set_text_attributes`: `SetConsoleTextAttribute(handle, attributes.value)` —
an absolute write of the console register. -/
def set_text_attributes (attributes : ConsoleTextAttr) (st : Console) : Console :=
  { st with
    register := attributes.value
    trace := st.trace ++ [Event.writeReg attributes.value] }

/-- `get_text_attributes`: `GetConsoleScreenBufferInfo` — reads the current
console register into a `ConsoleTextAttr`. -/
def get_text_attributes (st : Console) : ConsoleTextAttr × Console :=
  (⟨st.register⟩, { st with trace := st.trace ++ [Event.readReg st.register] })

/-- `change_text_attributes`: read the current attributes, clear the masked
bits (`attributes.value &= ~attr.mask`), OR in the masked value bits
(`attributes.value |= attr.value & attr.mask`), write the result back. -/
def change_text_attributes (attr : ConsoleTextAttrChange) (st : Console) : Console :=
  let p := get_text_attributes st
  let attributes := p.1
  let attributes : ConsoleTextAttr := ⟨attributes.value &&& compl32 attr.mask⟩
  let attributes : ConsoleTextAttr := ⟨attributes.value ||| (attr.value &&& attr.mask)⟩
  set_text_attributes attributes p.2

/-- `operator << (OStream&, ConsoleTextAttr)`: perform the absolute console
write, return the stream unchanged. -/
def streamPutAttr (st : Console) (attr : ConsoleTextAttr) : Console :=
  set_text_attributes attr st

/-- `operator << (OStream&, ConsoleTextAttrChange)`: perform the masked
console change, return the stream unchanged. -/
def streamPutChange (st : Console) (attr : ConsoleTextAttrChange) : Console :=
  change_text_attributes attr st

/-- The generic stream insertion of a string: appends the characters to the
stream content and records the text write. -/
def streamPutText (st : Console) (s : String) : Console :=
  { st with
    stream := st.stream ++ s
    trace := st.trace ++ [Event.writeText s] }

/-- `struct ConsoleTextAttrChangePrint { ConsoleTextAttrChange attributes; std::string_view string; }`. -/
structure ConsoleTextAttrChangePrint where
  attributes : ConsoleTextAttrChange
  string : String
deriving DecidableEq

/-- `operator << (OStream&, ConsoleTextAttrChangePrint)`:
`auto attributes = get_text_attributes(); stream << attr.attributes << attr.string << attributes;`. -/
def streamPutChangePrint (st : Console) (attr : ConsoleTextAttrChangePrint) : Console :=
  let p := get_text_attributes st
  streamPutAttr (streamPutText (streamPutChange p.2 attr.attributes) attr.string) p.1

/-- `FOREGROUND_BLUE` from the host console API (`WinCon.h`). -/
def FOREGROUND_BLUE : Nat := 0x0001

/-- `FOREGROUND_GREEN` from the host console API. -/
def FOREGROUND_GREEN : Nat := 0x0002

/-- `FOREGROUND_RED` from the host console API. -/
def FOREGROUND_RED : Nat := 0x0004

/-- `FOREGROUND_INTENSITY` from the host console API. -/
def FOREGROUND_INTENSITY : Nat := 0x0008

/-- `BACKGROUND_BLUE` from the host console API. -/
def BACKGROUND_BLUE : Nat := 0x0010

/-- `BACKGROUND_GREEN` from the host console API. -/
def BACKGROUND_GREEN : Nat := 0x0020

/-- `BACKGROUND_RED` from the host console API. -/
def BACKGROUND_RED : Nat := 0x0040

/-- `BACKGROUND_INTENSITY` from the host console API. -/
def BACKGROUND_INTENSITY : Nat := 0x0080

/-- `COMMON_LVB_GRID_HORIZONTAL` from the host console API. -/
def COMMON_LVB_GRID_HORIZONTAL : Nat := 0x0400

/-- `COMMON_LVB_GRID_LVERTICAL` from the host console API. -/
def COMMON_LVB_GRID_LVERTICAL : Nat := 0x0800

/-- `COMMON_LVB_GRID_RVERTICAL` from the host console API. -/
def COMMON_LVB_GRID_RVERTICAL : Nat := 0x1000

/-- `COMMON_LVB_REVERSE_VIDEO` from the host console API. -/
def COMMON_LVB_REVERSE_VIDEO : Nat := 0x4000

/-- `COMMON_LVB_UNDERSCORE` from the host console API. -/
def COMMON_LVB_UNDERSCORE : Nat := 0x8000

namespace Text

/-- `Text::mask`: the full foreground mask. -/
def mask : Nat := FOREGROUND_INTENSITY ||| FOREGROUND_RED ||| FOREGROUND_BLUE ||| FOREGROUND_GREEN

def black : ConsoleTextAttrChange := ⟨0, mask⟩

def blue : ConsoleTextAttrChange := ⟨FOREGROUND_BLUE, mask⟩

def green : ConsoleTextAttrChange := ⟨FOREGROUND_GREEN, mask⟩

def aqua : ConsoleTextAttrChange := ⟨FOREGROUND_BLUE ||| FOREGROUND_GREEN, mask⟩

def red : ConsoleTextAttrChange := ⟨FOREGROUND_RED, mask⟩

def purple : ConsoleTextAttrChange := ⟨FOREGROUND_RED ||| FOREGROUND_BLUE, mask⟩

def yellow : ConsoleTextAttrChange := ⟨FOREGROUND_RED ||| FOREGROUND_GREEN, mask⟩

def white : ConsoleTextAttrChange := ⟨FOREGROUND_RED ||| FOREGROUND_BLUE ||| FOREGROUND_GREEN, mask⟩

def grey : ConsoleTextAttrChange := ⟨FOREGROUND_INTENSITY, mask⟩

def light_blue : ConsoleTextAttrChange := ⟨FOREGROUND_INTENSITY ||| FOREGROUND_BLUE, mask⟩

def light_green : ConsoleTextAttrChange := ⟨FOREGROUND_INTENSITY ||| FOREGROUND_GREEN, mask⟩

def light_aqua : ConsoleTextAttrChange := ⟨FOREGROUND_INTENSITY ||| FOREGROUND_BLUE ||| FOREGROUND_GREEN, mask⟩

def light_red : ConsoleTextAttrChange := ⟨FOREGROUND_INTENSITY ||| FOREGROUND_RED, mask⟩

def light_purple : ConsoleTextAttrChange := ⟨FOREGROUND_INTENSITY ||| FOREGROUND_RED ||| FOREGROUND_BLUE, mask⟩

def light_yellow : ConsoleTextAttrChange := ⟨FOREGROUND_INTENSITY ||| FOREGROUND_RED ||| FOREGROUND_GREEN, mask⟩

def bright_white : ConsoleTextAttrChange := ⟨FOREGROUND_INTENSITY ||| FOREGROUND_RED ||| FOREGROUND_BLUE ||| FOREGROUND_GREEN, mask⟩

end Text

namespace Background

/-- `Background::mask`: the full background mask. -/
def mask : Nat := BACKGROUND_INTENSITY ||| BACKGROUND_RED ||| BACKGROUND_BLUE ||| BACKGROUND_GREEN

def black : ConsoleTextAttrChange := ⟨0, mask⟩

def blue : ConsoleTextAttrChange := ⟨BACKGROUND_BLUE, mask⟩

def green : ConsoleTextAttrChange := ⟨BACKGROUND_GREEN, mask⟩

def aqua : ConsoleTextAttrChange := ⟨BACKGROUND_BLUE ||| BACKGROUND_GREEN, mask⟩

def red : ConsoleTextAttrChange := ⟨BACKGROUND_RED, mask⟩

def purple : ConsoleTextAttrChange := ⟨BACKGROUND_RED ||| BACKGROUND_BLUE, mask⟩

def yellow : ConsoleTextAttrChange := ⟨BACKGROUND_RED ||| BACKGROUND_GREEN, mask⟩

def white : ConsoleTextAttrChange := ⟨BACKGROUND_RED ||| BACKGROUND_BLUE ||| BACKGROUND_GREEN, mask⟩

def grey : ConsoleTextAttrChange := ⟨BACKGROUND_INTENSITY, mask⟩

def light_blue : ConsoleTextAttrChange := ⟨BACKGROUND_INTENSITY ||| BACKGROUND_BLUE, mask⟩

def light_green : ConsoleTextAttrChange := ⟨BACKGROUND_INTENSITY ||| BACKGROUND_GREEN, mask⟩

def light_aqua : ConsoleTextAttrChange := ⟨BACKGROUND_INTENSITY ||| BACKGROUND_BLUE ||| BACKGROUND_GREEN, mask⟩

def light_red : ConsoleTextAttrChange := ⟨BACKGROUND_INTENSITY ||| BACKGROUND_RED, mask⟩

def light_purple : ConsoleTextAttrChange := ⟨BACKGROUND_INTENSITY ||| BACKGROUND_RED ||| BACKGROUND_BLUE, mask⟩

def light_yellow : ConsoleTextAttrChange := ⟨BACKGROUND_INTENSITY ||| BACKGROUND_RED ||| BACKGROUND_GREEN, mask⟩

def bright_white : ConsoleTextAttrChange := ⟨BACKGROUND_INTENSITY ||| BACKGROUND_RED ||| BACKGROUND_BLUE ||| BACKGROUND_GREEN, mask⟩

end Background

namespace Bar

def top : ConsoleTextAttrChange := ⟨COMMON_LVB_GRID_HORIZONTAL, COMMON_LVB_GRID_HORIZONTAL⟩

def top_off : ConsoleTextAttrChange := ⟨0, COMMON_LVB_GRID_HORIZONTAL⟩

def bottom : ConsoleTextAttrChange := ⟨COMMON_LVB_UNDERSCORE, COMMON_LVB_UNDERSCORE⟩

def bottom_off : ConsoleTextAttrChange := ⟨0, COMMON_LVB_UNDERSCORE⟩

def left : ConsoleTextAttrChange := ⟨COMMON_LVB_GRID_LVERTICAL, COMMON_LVB_GRID_LVERTICAL⟩

def left_off : ConsoleTextAttrChange := ⟨0, COMMON_LVB_GRID_LVERTICAL⟩

def right : ConsoleTextAttrChange := ⟨COMMON_LVB_GRID_RVERTICAL, COMMON_LVB_GRID_RVERTICAL⟩

def right_off : ConsoleTextAttrChange := ⟨0, COMMON_LVB_GRID_RVERTICAL⟩

def all : ConsoleTextAttrChange :=
  ⟨COMMON_LVB_GRID_HORIZONTAL ||| COMMON_LVB_UNDERSCORE ||| COMMON_LVB_GRID_LVERTICAL ||| COMMON_LVB_GRID_RVERTICAL,
   COMMON_LVB_GRID_HORIZONTAL ||| COMMON_LVB_UNDERSCORE ||| COMMON_LVB_GRID_LVERTICAL ||| COMMON_LVB_GRID_RVERTICAL⟩

def all_off : ConsoleTextAttrChange :=
  ⟨0, COMMON_LVB_GRID_HORIZONTAL ||| COMMON_LVB_UNDERSCORE ||| COMMON_LVB_GRID_LVERTICAL ||| COMMON_LVB_GRID_RVERTICAL⟩

end Bar

namespace Invert

def «on» : ConsoleTextAttrChange := ⟨COMMON_LVB_REVERSE_VIDEO, COMMON_LVB_REVERSE_VIDEO⟩

def off : ConsoleTextAttrChange := ⟨0, COMMON_LVB_REVERSE_VIDEO⟩

end Invert

/-!
The `Dye` and `Mark` scoped-print helpers. Each colour exists in two
overloads: one wrapping a plain string, and one wrapping an
already-built `ConsoleTextAttrChangePrint`, OR-ing its own change into
the inner change and keeping the inner text. The print overload of the
C++ name `Dye::black` is rendered here as `Dye.black_print` since Lean
has no overloading by argument type.
-/

namespace Dye

def black (string : String) : ConsoleTextAttrChangePrint := ⟨Text.black, string⟩

def blue (string : String) : ConsoleTextAttrChangePrint := ⟨Text.blue, string⟩

def green (string : String) : ConsoleTextAttrChangePrint := ⟨Text.green, string⟩

def aqua (string : String) : ConsoleTextAttrChangePrint := ⟨Text.aqua, string⟩

def red (string : String) : ConsoleTextAttrChangePrint := ⟨Text.red, string⟩

def purple (string : String) : ConsoleTextAttrChangePrint := ⟨Text.purple, string⟩

def yellow (string : String) : ConsoleTextAttrChangePrint := ⟨Text.yellow, string⟩

def white (string : String) : ConsoleTextAttrChangePrint := ⟨Text.white, string⟩

def grey (string : String) : ConsoleTextAttrChangePrint := ⟨Text.grey, string⟩

def light_blue (string : String) : ConsoleTextAttrChangePrint := ⟨Text.light_blue, string⟩

def light_green (string : String) : ConsoleTextAttrChangePrint := ⟨Text.light_green, string⟩

def light_aqua (string : String) : ConsoleTextAttrChangePrint := ⟨Text.light_aqua, string⟩

def light_red (string : String) : ConsoleTextAttrChangePrint := ⟨Text.light_red, string⟩

def light_purple (string : String) : ConsoleTextAttrChangePrint := ⟨Text.light_purple, string⟩

def light_yellow (string : String) : ConsoleTextAttrChangePrint := ⟨Text.light_yellow, string⟩

def bright_white (string : String) : ConsoleTextAttrChangePrint := ⟨Text.bright_white, string⟩

def black_print (formatedString : ConsoleTextAttrChangePrint) : ConsoleTextAttrChangePrint :=
  ⟨Text.black ||| formatedString.attributes, formatedString.string⟩

def blue_print (formatedString : ConsoleTextAttrChangePrint) : ConsoleTextAttrChangePrint :=
  ⟨Text.blue ||| formatedString.attributes, formatedString.string⟩

def green_print (formatedString : ConsoleTextAttrChangePrint) : ConsoleTextAttrChangePrint :=
  ⟨Text.green ||| formatedString.attributes, formatedString.string⟩

def aqua_print (formatedString : ConsoleTextAttrChangePrint) : ConsoleTextAttrChangePrint :=
  ⟨Text.aqua ||| formatedString.attributes, formatedString.string⟩

def red_print (formatedString : ConsoleTextAttrChangePrint) : ConsoleTextAttrChangePrint :=
  ⟨Text.red ||| formatedString.attributes, formatedString.string⟩

def purple_print (formatedString : ConsoleTextAttrChangePrint) : ConsoleTextAttrChangePrint :=
  ⟨Text.purple ||| formatedString.attributes, formatedString.string⟩

def yellow_print (formatedString : ConsoleTextAttrChangePrint) : ConsoleTextAttrChangePrint :=
  ⟨Text.yellow ||| formatedString.attributes, formatedString.string⟩

def white_print (formatedString : ConsoleTextAttrChangePrint) : ConsoleTextAttrChangePrint :=
  ⟨Text.white ||| formatedString.attributes, formatedString.string⟩

def grey_print (formatedString : ConsoleTextAttrChangePrint) : ConsoleTextAttrChangePrint :=
  ⟨Text.grey ||| formatedString.attributes, formatedString.string⟩

def light_blue_print (formatedString : ConsoleTextAttrChangePrint) : ConsoleTextAttrChangePrint :=
  ⟨Text.light_blue ||| formatedString.attributes, formatedString.string⟩

def light_green_print (formatedString : ConsoleTextAttrChangePrint) : ConsoleTextAttrChangePrint :=
  ⟨Text.light_green ||| formatedString.attributes, formatedString.string⟩

def light_aqua_print (formatedString : ConsoleTextAttrChangePrint) : ConsoleTextAttrChangePrint :=
  ⟨Text.light_aqua ||| formatedString.attributes, formatedString.string⟩

def light_red_print (formatedString : ConsoleTextAttrChangePrint) : ConsoleTextAttrChangePrint :=
  ⟨Text.light_red ||| formatedString.attributes, formatedString.string⟩

def light_purple_print (formatedString : ConsoleTextAttrChangePrint) : ConsoleTextAttrChangePrint :=
  ⟨Text.light_purple ||| formatedString.attributes, formatedString.string⟩

def light_yellow_print (formatedString : ConsoleTextAttrChangePrint) : ConsoleTextAttrChangePrint :=
  ⟨Text.light_yellow ||| formatedString.attributes, formatedString.string⟩

def bright_white_print (formatedString : ConsoleTextAttrChangePrint) : ConsoleTextAttrChangePrint :=
  ⟨Text.bright_white ||| formatedString.attributes, formatedString.string⟩

end Dye

namespace Mark

def black (string : String) : ConsoleTextAttrChangePrint := ⟨Background.black, string⟩

def blue (string : String) : ConsoleTextAttrChangePrint := ⟨Background.blue, string⟩

def green (string : String) : ConsoleTextAttrChangePrint := ⟨Background.green, string⟩

def aqua (string : String) : ConsoleTextAttrChangePrint := ⟨Background.aqua, string⟩

def red (string : String) : ConsoleTextAttrChangePrint := ⟨Background.red, string⟩

def purple (string : String) : ConsoleTextAttrChangePrint := ⟨Background.purple, string⟩

def yellow (string : String) : ConsoleTextAttrChangePrint := ⟨Background.yellow, string⟩

def white (string : String) : ConsoleTextAttrChangePrint := ⟨Background.white, string⟩

def grey (string : String) : ConsoleTextAttrChangePrint := ⟨Background.grey, string⟩

def light_blue (string : String) : ConsoleTextAttrChangePrint := ⟨Background.light_blue, string⟩

def light_green (string : String) : ConsoleTextAttrChangePrint := ⟨Background.light_green, string⟩

def light_aqua (string : String) : ConsoleTextAttrChangePrint := ⟨Background.light_aqua, string⟩

def light_red (string : String) : ConsoleTextAttrChangePrint := ⟨Background.light_red, string⟩

def light_purple (string : String) : ConsoleTextAttrChangePrint := ⟨Background.light_purple, string⟩

def light_yellow (string : String) : ConsoleTextAttrChangePrint := ⟨Background.light_yellow, string⟩

def bright_white (string : String) : ConsoleTextAttrChangePrint := ⟨Background.bright_white, string⟩

def black_print (formatedString : ConsoleTextAttrChangePrint) : ConsoleTextAttrChangePrint :=
  ⟨Background.black ||| formatedString.attributes, formatedString.string⟩

def blue_print (formatedString : ConsoleTextAttrChangePrint) : ConsoleTextAttrChangePrint :=
  ⟨Background.blue ||| formatedString.attributes, formatedString.string⟩

def green_print (formatedString : ConsoleTextAttrChangePrint) : ConsoleTextAttrChangePrint :=
  ⟨Background.green ||| formatedString.attributes, formatedString.string⟩

def aqua_print (formatedString : ConsoleTextAttrChangePrint) : ConsoleTextAttrChangePrint :=
  ⟨Background.aqua ||| formatedString.attributes, formatedString.string⟩

def red_print (formatedString : ConsoleTextAttrChangePrint) : ConsoleTextAttrChangePrint :=
  ⟨Background.red ||| formatedString.attributes, formatedString.string⟩

def purple_print (formatedString : ConsoleTextAttrChangePrint) : ConsoleTextAttrChangePrint :=
  ⟨Background.purple ||| formatedString.attributes, formatedString.string⟩

def yellow_print (formatedString : ConsoleTextAttrChangePrint) : ConsoleTextAttrChangePrint :=
  ⟨Background.yellow ||| formatedString.attributes, formatedString.string⟩

def white_print (formatedString : ConsoleTextAttrChangePrint) : ConsoleTextAttrChangePrint :=
  ⟨Background.white ||| formatedString.attributes, formatedString.string⟩

def grey_print (formatedString : ConsoleTextAttrChangePrint) : ConsoleTextAttrChangePrint :=
  ⟨Background.grey ||| formatedString.attributes, formatedString.string⟩

def light_blue_print (formatedString : ConsoleTextAttrChangePrint) : ConsoleTextAttrChangePrint :=
  ⟨Background.light_blue ||| formatedString.attributes, formatedString.string⟩

def light_green_print (formatedString : ConsoleTextAttrChangePrint) : ConsoleTextAttrChangePrint :=
  ⟨Background.light_green ||| formatedString.attributes, formatedString.string⟩

def light_aqua_print (formatedString : ConsoleTextAttrChangePrint) : ConsoleTextAttrChangePrint :=
  ⟨Background.light_aqua ||| formatedString.attributes, formatedString.string⟩

def light_red_print (formatedString : ConsoleTextAttrChangePrint) : ConsoleTextAttrChangePrint :=
  ⟨Background.light_red ||| formatedString.attributes, formatedString.string⟩

def light_purple_print (formatedString : ConsoleTextAttrChangePrint) : ConsoleTextAttrChangePrint :=
  ⟨Background.light_purple ||| formatedString.attributes, formatedString.string⟩

def light_yellow_print (formatedString : ConsoleTextAttrChangePrint) : ConsoleTextAttrChangePrint :=
  ⟨Background.light_yellow ||| formatedString.attributes, formatedString.string⟩

def bright_white_print (formatedString : ConsoleTextAttrChangePrint) : ConsoleTextAttrChangePrint :=
  ⟨Background.bright_white ||| formatedString.attributes, formatedString.string⟩

end Mark

def Underline (string : String) : ConsoleTextAttrChangePrint := ⟨Bar.bottom, string⟩

def Underline_print (formatedString : ConsoleTextAttrChangePrint) : ConsoleTextAttrChangePrint :=
  ⟨Bar.bottom ||| formatedString.attributes, formatedString.string⟩


end cc

namespace cc

/-- Claim C1: for every prior console register `P = st.register` and every
`ConsoleTextAttrChange {v, m}`, `change_text_attributes ⟨v, m⟩` leaves the
console register equal to `(P & ~m) | (v & m)`, computed as read current
attributes, clear the masked bits, OR in `value & mask`, write back. -/
theorem change_text_attributes_register (v m : Nat) (st : Console) :
    (change_text_attributes ⟨v, m⟩ st).register =
      (st.register &&& compl32 m) ||| (v &&& m) := rfl

/-- Claim C2: inserting a `ConsoleTextAttrChangePrint {chg, s}` into the
stream against prior register `R = st.register` performs exactly the
host-event sequence: capture the current register (a read), apply the
change (a read and a masked write), write the text to the stream, restore
the captured register by an absolute write; the final console register
equals `R` and the stream content grows by exactly `s`. -/
theorem streamPutChangePrint_restores (st : Console) (chg : ConsoleTextAttrChange) (s : String) :
    (streamPutChangePrint st ⟨chg, s⟩).register = st.register ∧
    (streamPutChangePrint st ⟨chg, s⟩).stream = st.stream ++ s ∧
    (streamPutChangePrint st ⟨chg, s⟩).trace = st.trace ++
      [Event.readReg st.register, Event.readReg st.register,
       Event.writeReg ((st.register &&& compl32 chg.mask) ||| (chg.value &&& chg.mask)),
       Event.writeText s, Event.writeReg st.register] := by
  refine ⟨rfl, rfl, ?_⟩
  simp [streamPutChangePrint, streamPutAttr, streamPutChange, streamPutText,
    change_text_attributes, set_text_attributes, get_text_attributes]

/-- Claim C4: for every pair of `ConsoleTextAttrChange` values `a, b`, the
composition operator returns a change whose mask is `a.mask ||| b.mask` and
whose value is `a.value ||| b.value`. -/
theorem change_or_components (a b : ConsoleTextAttrChange) :
    (a ||| b).mask = a.mask ||| b.mask ∧ (a ||| b).value = a.value ||| b.value :=
  ⟨rfl, rfl⟩

/-- Claim C5: the composition operator on absolute attribute sets
`ConsoleTextAttr` is commutative, associative and idempotent. -/
theorem attr_or_comm_assoc_idem (a b c : ConsoleTextAttr) :
    a ||| b = b ||| a ∧ (a ||| b) ||| c = a ||| (b ||| c) ∧ a ||| a = a := by
  refine ⟨?_, ?_, ?_⟩
  · ext
    show a.value ||| b.value = b.value ||| a.value
    exact Nat.or_comm _ _
  · ext
    show (a.value ||| b.value) ||| c.value = a.value ||| (b.value ||| c.value)
    exact Nat.or_assoc _ _ _
  · ext
    show a.value ||| a.value = a.value
    exact Nat.or_self _

/-- Claim C6: the composition operator on `ConsoleTextAttrChange` (a pure
total function in this model) is commutative and associative on the mask
component for all operands, and commutative on the value component
whenever the two operands' masked regions do not overlap. -/
theorem change_or_mask_comm_assoc (a b c : ConsoleTextAttrChange) :
    (a ||| b).mask = (b ||| a).mask ∧
    ((a ||| b) ||| c).mask = (a ||| (b ||| c)).mask ∧
    (a.mask &&& b.mask = 0 → (a ||| b).value = (b ||| a).value) := by
  refine ⟨?_, ?_, fun _h => ?_⟩
  · show a.mask ||| b.mask = b.mask ||| a.mask
    exact Nat.or_comm _ _
  · show (a.mask ||| b.mask) ||| c.mask = a.mask ||| (b.mask ||| c.mask)
    exact Nat.or_assoc _ _ _
  · show a.value ||| b.value = b.value ||| a.value
    exact Nat.or_comm _ _

/-- Witness for C6: `Text.red` and `Bar.bottom` have disjoint masks, and the
value-commutativity implication discharges at `a = Text.red`,
`b = Bar.bottom`, `c = Invert.«on»`. -/
theorem change_or_mask_comm_assoc_witness :
    Text.red.mask &&& Bar.bottom.mask = 0 ∧
    (Text.red ||| Bar.bottom).value = (Bar.bottom ||| Text.red).value :=
  ⟨by decide,
   (change_or_mask_comm_assoc Text.red Bar.bottom Invert.«on»).2.2 (by decide)⟩

/-- Claim C7: for every `unsigned int` value `v < 2^32` and every prior
console state, `change_text_attributes ⟨v, 0xFFFFFFFF⟩` leaves the console
register in exactly the same state as `set_text_attributes ⟨v⟩`. -/
theorem change_full_mask_eq_set (v : Nat) (hv : v < 2 ^ 32) (st : Console) :
    (change_text_attributes ⟨v, 0xFFFFFFFF⟩ st).register =
      (set_text_attributes ⟨v⟩ st).register := by
  have hF : (0xFFFFFFFF : Nat) = 2 ^ 32 - 1 := by norm_num
  show (st.register &&& compl32 0xFFFFFFFF) ||| (v &&& 0xFFFFFFFF) = v
  rw [compl32, Nat.xor_self, Nat.and_zero, Nat.zero_or, hF,
    Nat.and_pow_two_sub_one_of_lt_two_pow hv]

/-- Witness for C7: at `v = 7` and a concrete console state. -/
theorem change_full_mask_eq_set_witness :
    7 < 2 ^ 32 ∧
    (change_text_attributes ⟨7, 0xFFFFFFFF⟩ ⟨5, "", []⟩).register =
      (set_text_attributes ⟨7⟩ ⟨5, "", []⟩).register :=
  ⟨by norm_num, change_full_mask_eq_set 7 (by norm_num) ⟨5, "", []⟩⟩

/-- Claim C9: inserting a `ConsoleTextAttr` into the stream performs the
absolute console write and leaves the stream content unchanged; inserting
a `ConsoleTextAttrChange` performs the masked console change and leaves
the stream content unchanged — neither insertion appends anything. -/
theorem stream_insert_no_text (st : Console) (a : ConsoleTextAttr) (chg : ConsoleTextAttrChange) :
    (streamPutAttr st a).stream = st.stream ∧
    (streamPutAttr st a).register = a.value ∧
    (streamPutAttr st a).trace = st.trace ++ [Event.writeReg a.value] ∧
    (streamPutChange st chg).stream = st.stream ∧
    (streamPutChange st chg).register =
      (st.register &&& compl32 chg.mask) ||| (chg.value &&& chg.mask) ∧
    (streamPutChange st chg).trace = st.trace ++
      [Event.readReg st.register,
       Event.writeReg ((st.register &&& compl32 chg.mask) ||| (chg.value &&& chg.mask))] := by
  refine ⟨rfl, rfl, rfl, rfl, rfl, ?_⟩
  simp [streamPutChange, change_text_attributes, set_text_attributes, get_text_attributes]

/-- Claim C10: for every value `v`, mask `m` and prior console state,
`change_text_attributes ⟨v, m⟩` and `change_text_attributes ⟨v &&& m, m⟩`
produce the same final console state: value bits outside the mask never
affect the result. -/
theorem change_text_attributes_sanitized (v m : Nat) (st : Console) :
    change_text_attributes ⟨v, m⟩ st = change_text_attributes ⟨v &&& m, m⟩ st := by
  simp [change_text_attributes, set_text_attributes, get_text_attributes,
    Nat.and_assoc]

/-- Claim C3: applying any colour wrapper of `Dye` or `Mark` to an
already-built scoped-print value `p` yields a single scoped-print value
whose change is the composition of the wrapper's own change with the
change of `p`, and whose text is the text of `p` unchanged; in particular
nesting a foreground-yellow scoped-print inside a background-green one
gives the change `Text.yellow ||| Background.green` and the inner text. -/
theorem dye_mark_wrap (p : ConsoleTextAttrChangePrint) (s : String) :
    Dye.black_print p = ⟨Text.black ||| p.attributes, p.string⟩ ∧
    Dye.blue_print p = ⟨Text.blue ||| p.attributes, p.string⟩ ∧
    Dye.green_print p = ⟨Text.green ||| p.attributes, p.string⟩ ∧
    Dye.aqua_print p = ⟨Text.aqua ||| p.attributes, p.string⟩ ∧
    Dye.red_print p = ⟨Text.red ||| p.attributes, p.string⟩ ∧
    Dye.purple_print p = ⟨Text.purple ||| p.attributes, p.string⟩ ∧
    Dye.yellow_print p = ⟨Text.yellow ||| p.attributes, p.string⟩ ∧
    Dye.white_print p = ⟨Text.white ||| p.attributes, p.string⟩ ∧
    Dye.grey_print p = ⟨Text.grey ||| p.attributes, p.string⟩ ∧
    Dye.light_blue_print p = ⟨Text.light_blue ||| p.attributes, p.string⟩ ∧
    Dye.light_green_print p = ⟨Text.light_green ||| p.attributes, p.string⟩ ∧
    Dye.light_aqua_print p = ⟨Text.light_aqua ||| p.attributes, p.string⟩ ∧
    Dye.light_red_print p = ⟨Text.light_red ||| p.attributes, p.string⟩ ∧
    Dye.light_purple_print p = ⟨Text.light_purple ||| p.attributes, p.string⟩ ∧
    Dye.light_yellow_print p = ⟨Text.light_yellow ||| p.attributes, p.string⟩ ∧
    Dye.bright_white_print p = ⟨Text.bright_white ||| p.attributes, p.string⟩ ∧
    Mark.black_print p = ⟨Background.black ||| p.attributes, p.string⟩ ∧
    Mark.blue_print p = ⟨Background.blue ||| p.attributes, p.string⟩ ∧
    Mark.green_print p = ⟨Background.green ||| p.attributes, p.string⟩ ∧
    Mark.aqua_print p = ⟨Background.aqua ||| p.attributes, p.string⟩ ∧
    Mark.red_print p = ⟨Background.red ||| p.attributes, p.string⟩ ∧
    Mark.purple_print p = ⟨Background.purple ||| p.attributes, p.string⟩ ∧
    Mark.yellow_print p = ⟨Background.yellow ||| p.attributes, p.string⟩ ∧
    Mark.white_print p = ⟨Background.white ||| p.attributes, p.string⟩ ∧
    Mark.grey_print p = ⟨Background.grey ||| p.attributes, p.string⟩ ∧
    Mark.light_blue_print p = ⟨Background.light_blue ||| p.attributes, p.string⟩ ∧
    Mark.light_green_print p = ⟨Background.light_green ||| p.attributes, p.string⟩ ∧
    Mark.light_aqua_print p = ⟨Background.light_aqua ||| p.attributes, p.string⟩ ∧
    Mark.light_red_print p = ⟨Background.light_red ||| p.attributes, p.string⟩ ∧
    Mark.light_purple_print p = ⟨Background.light_purple ||| p.attributes, p.string⟩ ∧
    Mark.light_yellow_print p = ⟨Background.light_yellow ||| p.attributes, p.string⟩ ∧
    Mark.bright_white_print p = ⟨Background.bright_white ||| p.attributes, p.string⟩ ∧
    Mark.green_print (Dye.yellow s) = ⟨Text.yellow ||| Background.green, s⟩ :=
  ⟨rfl, rfl, rfl, rfl, rfl, rfl, rfl, rfl, rfl, rfl, rfl, rfl, rfl, rfl, rfl, rfl, rfl, rfl, rfl, rfl, rfl, rfl, rfl, rfl, rfl, rfl, rfl, rfl, rfl, rfl, rfl, rfl,
   congrArg (fun c => ConsoleTextAttrChangePrint.mk c s)
     (show Background.green ||| Text.yellow = Text.yellow ||| Background.green by decide)⟩

/-- A change obeys the value-within-mask discipline when `value & ~mask == 0`. -/
def wellMasked (c : ConsoleTextAttrChange) : Prop := c.value &&& compl32 c.mask = 0

instance : DecidablePred wellMasked := fun c =>
  inferInstanceAs (Decidable (c.value &&& compl32 c.mask = 0))

/-- All named `ConsoleTextAttrChange` constants exported by the library. -/
def namedChanges : List ConsoleTextAttrChange :=
  [Text.black, Text.blue, Text.green, Text.aqua, Text.red, Text.purple,
   Text.yellow, Text.white, Text.grey, Text.light_blue, Text.light_green,
   Text.light_aqua, Text.light_red, Text.light_purple, Text.light_yellow,
   Text.bright_white,
   Background.black, Background.blue, Background.green, Background.aqua,
   Background.red, Background.purple, Background.yellow, Background.white,
   Background.grey, Background.light_blue, Background.light_green,
   Background.light_aqua, Background.light_red, Background.light_purple,
   Background.light_yellow, Background.bright_white,
   Bar.top, Bar.top_off, Bar.bottom, Bar.bottom_off, Bar.left, Bar.left_off,
   Bar.right, Bar.right_off, Bar.all, Bar.all_off,
   Invert.«on», Invert.off]

/-- A bitwise AND of naturals is zero exactly when no bit is set in both. -/
theorem land_eq_zero_iff {a b : Nat} :
    a &&& b = 0 ↔ ∀ i, a.testBit i = true → b.testBit i = false := by
  constructor
  · intro h i ha
    have hb := congrArg (fun x => Nat.testBit x i) h
    simpa [ha] using hb
  · intro h
    apply Nat.eq_of_testBit_eq
    intro i
    simp only [Nat.testBit_and, Nat.zero_testBit]
    cases ha : a.testBit i with
    | false => rfl
    | true => simp [h i ha]

/-- The 32-bit complement of `m` tested at bit `i` flips the bit below
width 32 and keeps it above. -/
theorem compl32_testBit (m i : Nat) :
    (compl32 m).testBit i = ((m.testBit i).xor (decide (i < 32))) := by
  have hF : (0xFFFFFFFF : Nat) = 2 ^ 32 - 1 := by norm_num
  rw [compl32, hF, Nat.testBit_xor, Nat.testBit_two_pow_sub_one]

/-- The composition of two changes with 32-bit values preserves the
value-within-mask discipline. -/
theorem wellMasked_or (a b : ConsoleTextAttrChange)
    (hva : a.value < 2 ^ 32) (hvb : b.value < 2 ^ 32)
    (ha : wellMasked a) (hb : wellMasked b) : wellMasked (a ||| b) := by
  show (a.value ||| b.value) &&& compl32 (a.mask ||| b.mask) = 0
  rw [wellMasked, land_eq_zero_iff] at ha hb
  rw [land_eq_zero_iff]
  intro i hi
  have hi2 : a.value.testBit i = true ∨ b.value.testBit i = true := by
    simpa using hi
  rw [compl32_testBit]
  rcases Nat.lt_or_ge i 32 with h32 | h32
  · rw [decide_eq_true h32]
    have hmask : a.mask.testBit i = true ∨ b.mask.testBit i = true := by
      rcases hi2 with hav | hbv
      · left
        have hm := ha i hav
        rw [compl32_testBit, decide_eq_true h32] at hm
        simpa using hm
      · right
        have hm := hb i hbv
        rw [compl32_testBit, decide_eq_true h32] at hm
        simpa using hm
    rw [Nat.testBit_or]
    rcases hmask with hm | hm <;> simp [hm]
  · have h2 : (2 : Nat) ^ 32 ≤ 2 ^ i := Nat.pow_le_pow_right (by norm_num) h32
    have hav : a.value.testBit i = false :=
      Nat.testBit_lt_two_pow (Nat.lt_of_lt_of_le hva h2)
    have hbv : b.value.testBit i = false :=
      Nat.testBit_lt_two_pow (Nat.lt_of_lt_of_le hvb h2)
    rw [hav, hbv] at hi2
    simp at hi2

/-- Claim C8: every named `ConsoleTextAttrChange` constant exported by the
library (all `Text`, `Background`, `Bar` and `Invert` constants) satisfies
`value & ~mask == 0`, and the composition operator preserves this
discipline on changes whose values fit in 32 bits. -/
theorem named_changes_wellMasked (a b : ConsoleTextAttrChange)
    (hva : a.value < 2 ^ 32) (hvb : b.value < 2 ^ 32)
    (ha : wellMasked a) (hb : wellMasked b) :
    (∀ c ∈ namedChanges, wellMasked c) ∧ wellMasked (a ||| b) :=
  ⟨by decide, wellMasked_or a b hva hvb ha hb⟩

/-- Witness for C8: at `a = Text.red` and `b = Background.green`. -/
theorem named_changes_wellMasked_witness :
    (Text.red.value < 2 ^ 32 ∧ Background.green.value < 2 ^ 32 ∧
     wellMasked Text.red ∧ wellMasked Background.green) ∧
    ((∀ c ∈ namedChanges, wellMasked c) ∧
     wellMasked (Text.red ||| Background.green)) :=
  ⟨⟨by decide, by decide, by decide, by decide⟩,
   named_changes_wellMasked Text.red Background.green
     (by decide) (by decide) (by decide) (by decide)⟩

end cc
